import Mathlib

/-!
Shallow embedding of the `Student` racecar library
(`src/library/racecar_core.py` and `src/library/lidar.py`).

Python floats are modelled as rationals (no claim depends on rounding).
Raw controller callbacks, loop ticks and the mode state machine are
modelled as an explicit event-step relation on a record of the mutable
state of `Racecar`, `Racecar.Drive` and `Racecar.Controller`.
-/

namespace Racecar

/-- `Racecar.Controller.Button` enum (values 0..7 in the source). -/
inductive Button
  | A | B | X | Y | LB | RB | LJOY | RJOY
  deriving DecidableEq, Repr

/-- `Racecar.Controller.Trigger` enum. -/
inductive Trigger
  | left | right
  deriving DecidableEq, Repr

/-- `Racecar.Controller.Joystick` enum. -/
inductive Joystick
  | left | right
  deriving DecidableEq, Repr

/-- An argument passed to a controller accessor.  Python accepts any value
and checks `isinstance` against the expected enum; everything that is not
a member of the expected enum takes the fall-through branch, captured by
the constructors other than the expected one (`other` stands for every
non-enum Python value). -/
inductive CtrlArg
  | button (b : Button)
  | trigger (t : Trigger)
  | joystick (j : Joystick)
  | other
  deriving DecidableEq, Repr

/-- Mutable state of `Racecar.Controller`: the committed snapshots
(`was_down`, `is_down`, `last_trigger`, `last_joystick`), the raw
accumulators written by the asynchronous callbacks (`cur_down`,
`cur_trigger`, `cur_joystick`) and the raw START/BACK flags (the
source stores the raw value and tests truthiness; we store the
truthiness). -/
structure ControllerState where
  was_down : Button → Bool
  is_down : Button → Bool
  cur_down : Button → Bool
  last_trigger : Trigger → ℚ
  cur_trigger : Trigger → ℚ
  last_joystick : Joystick → ℚ × ℚ
  cur_joystick : Joystick → ℚ × ℚ
  cur_start : Bool
  cur_back : Bool

namespace Controller

/-- State after `Controller.__init__`: all arrays zeroed. -/
def init : ControllerState where
  was_down := fun _ => false
  is_down := fun _ => false
  cur_down := fun _ => false
  last_trigger := fun _ => 0
  cur_trigger := fun _ => 0
  last_joystick := fun _ => (0, 0)
  cur_joystick := fun _ => (0, 0)
  cur_start := false
  cur_back := false

/-- `Controller.is_down`. -/
def is_down (c : ControllerState) : CtrlArg → Bool
  | .button b => c.is_down b
  | _ => false

/-- `Controller.was_pressed`. -/
def was_pressed (c : ControllerState) : CtrlArg → Bool
  | .button b => c.is_down b && !c.was_down b
  | _ => false

/-- `Controller.was_released`. -/
def was_released (c : ControllerState) : CtrlArg → Bool
  | .button b => !c.is_down b && c.was_down b
  | _ => false

/-- `Controller.get_trigger`. -/
def get_trigger (c : ControllerState) : CtrlArg → ℚ
  | .trigger t => c.last_trigger t
  | _ => 0

/-- `Controller.get_joystick`. -/
def get_joystick (c : ControllerState) : CtrlArg → ℚ × ℚ
  | .joystick j => c.last_joystick j
  | _ => (0, 0)

/-- `Controller.__button_callback`: the raw accumulator entry for the
button is overwritten with the truthiness of the value. -/
def button_callback (c : ControllerState) (b : Button) (v : Bool) :
    ControllerState :=
  { c with cur_down := Function.update c.cur_down b v }

/-- `Controller.__trigger_callback`. -/
def trigger_callback (c : ControllerState) (t : Trigger) (v : ℚ) :
    ControllerState :=
  { c with cur_trigger := Function.update c.cur_trigger t v }

/-- `Controller.__joystick_callback` with `axis` 0 (x) or 1 (y). -/
def joystick_callback (c : ControllerState) (j : Joystick) (axis : Fin 2)
    (v : ℚ) : ControllerState :=
  let pair :=
    if axis = 0 then (v, (c.cur_joystick j).2)
    else ((c.cur_joystick j).1, v)
  { c with cur_joystick := Function.update c.cur_joystick j pair }

/-- `Controller.__update`, the per-tick commit: shift
`is_down → was_down`, `cur_down → is_down`, and promote the raw
trigger/joystick accumulators to the committed snapshots. -/
def commit (c : ControllerState) : ControllerState :=
  { c with
    was_down := c.is_down
    is_down := c.cur_down
    last_trigger := c.cur_trigger
    last_joystick := c.cur_joystick }

/-- A controller-level event: one raw `__button_callback` invocation for
some button, or one per-tick `__update` commit. -/
inductive CEv
  | raw (b : Button) (v : Bool)
  | commit

/-- Apply a controller-level event. -/
def capply (c : ControllerState) : CEv → ControllerState
  | .raw b v => button_callback c b v
  | .commit => commit c

/-- Run a controller-level event list. -/
def crun (c : ControllerState) (evs : List CEv) : ControllerState :=
  evs.foldl capply c

/-- Number of ticks on which `was_pressed b` reports true while running
`evs`: `was_pressed` is stable between commits, so a tick's reading is
the reading right after the commit that opened it. -/
def pressedCount (c : ControllerState) (b : Button) : List CEv → ℕ
  | [] => 0
  | e :: es =>
    let c' := capply c e
    (match e with
     | .commit => if was_pressed c' (.button b) then 1 else 0
     | _ => 0) + pressedCount c' b es

/-- The sequence of committed `is_down b` snapshots produced while
running `evs` (one entry per commit). -/
def committedSeq (c : ControllerState) (b : Button) : List CEv → List Bool
  | [] => []
  | e :: es =>
    let c' := capply c e
    match e with
    | .commit => c'.is_down b :: committedSeq c' b es
    | _ => committedSeq c' b es

/-- Number of rising edges (`false` then `true`) in a snapshot sequence,
given the snapshot preceding it. -/
def risingCount (prev : Bool) : List Bool → ℕ
  | [] => 0
  | x :: xs => (if x && !prev then 1 else 0) + risingCount x xs

end Controller

/-- Pending `AckermannDriveStamped` message of `Racecar.Drive`, reduced to
its two written fields `(drive.speed, drive.steering_angle)`, plus the
log of messages handed to `publisher.publish`. -/
structure DriveState where
  message : ℚ × ℚ
  published : List (ℚ × ℚ)

namespace Drive

def MAX_SPEED : ℚ := 5
def MAX_ANGLE : ℚ := 20

/-- State after `Drive.__init__`: a fresh `AckermannDriveStamped()`
message (all-zero fields) and nothing published. -/
def init : DriveState where
  message := (0, 0)
  published := []

/-- `Drive.set_speed_angle`: clamp and store, no publish.  The
`CONVERSION_FACTOR` multiplication is commented out in the source,
so the clamped angle is stored as-is. -/
def set_speed_angle (d : DriveState) (speed angle : ℚ) : DriveState :=
  { d with message :=
      (max (-MAX_SPEED) (min MAX_SPEED speed),
       max (-MAX_ANGLE) (min MAX_ANGLE angle)) }

/-- `Drive.stop`. -/
def stop (d : DriveState) : DriveState :=
  set_speed_angle d 0 0

/-- `Drive.__update`, the per-tick flush: publish the pending message
unconditionally; the pending message itself is not changed. -/
def flush (d : DriveState) : DriveState :=
  { d with published := d.published ++ [d.message] }

end Drive

/-- The value of `Racecar.__cur_update`: either the built-in
`__default_update` or the user-supplied update function. -/
inductive Mode
  | defaultDrive | userProgram
  deriving DecidableEq, Repr

/-- Mutable state of a `Racecar`: the active mode, whether
`set_start_update` has been called (`__user_start`/`__user_update` are
not `None`), how many times the user start action has run, whether the
process has halted via `__handle_exit`, whether calling `None` raised
(`__handle_start` with `__user_start = None`), and the two modules. -/
structure RacecarState where
  mode : Mode
  userSet : Bool
  userStartCalls : ℕ
  halted : Bool
  errored : Bool
  ctrl : ControllerState
  drive : DriveState

/-- State after `Racecar.__init__`: `__handle_back` has run, so the mode
is the default drive; no user functions installed. -/
def racecarInit : RacecarState where
  mode := .defaultDrive
  userSet := false
  userStartCalls := 0
  halted := false
  errored := false
  ctrl := Controller.init
  drive := Drive.init

/-- `Racecar.set_start_update`. -/
def set_start_update (s : RacecarState) : RacecarState :=
  { s with userSet := true }

/-- A user update or start action: it may read the controller and
replace the drive state through the public drive methods (it has no way
to write controller state through the API). -/
def UserAction : Type := ControllerState → DriveState → DriveState

/-- `Racecar.__handle_start` invoked with user actions `us` installed
when `userSet`: `print`, then call `self.__user_start()` — a `TypeError`
if it is still `None`, in which case `__cur_update` is never reassigned —
then switch `__cur_update` to the user update. -/
def handle_start (us : UserAction) (s : RacecarState) : RacecarState :=
  if s.userSet then
    { s with
      userStartCalls := s.userStartCalls + 1
      drive := us s.ctrl s.drive
      mode := .userProgram }
  else
    { s with errored := true }

/-- `Racecar.__handle_back`: `__default_start` is a no-op, then switch
`__cur_update` to `__default_update`. -/
def handle_back (s : RacecarState) : RacecarState :=
  { s with mode := .defaultDrive }

/-- The speed `Racecar.__default_update` computes:
`(forwardSpeed - backSpeed) * SPEED_MULTIPLIER`, forced to `0` when both
triggers are pressed (`forwardSpeed` is the LEFT trigger, `backSpeed`
the RIGHT). -/
def default_speed (c : ControllerState) : ℚ :=
  let forwardSpeed := Controller.get_trigger c (.trigger .left)
  let backSpeed := Controller.get_trigger c (.trigger .right)
  let speed := (forwardSpeed - backSpeed) * 1
  if forwardSpeed > 0 ∧ backSpeed > 0 then 0 else speed

/-- The angle `Racecar.__default_update` computes: the left joystick's
horizontal axis times `ANGLE_MULTIPLIER = 20`. -/
def default_angle (c : ControllerState) : ℚ :=
  (Controller.get_joystick c (.joystick .left)).1 * 20

/-- `Racecar.__default_update`. -/
def default_update (s : RacecarState) : RacecarState :=
  let d := Drive.set_speed_angle s.drive (default_speed s.ctrl) (default_angle s.ctrl)
  { s with drive := d }

/-- Events delivered to the system: the raw `XboxController` callbacks
registered in `Controller.__init__`, and one iteration of the
`Racecar.__run` loop (`tick`).  The joystick callbacks are registered
as: LTHUMBX → (Joystick.RIGHT, axis 0), LTHUMBY → (Joystick.RIGHT,
axis 1), and RTHUMBX twice → (Joystick.RIGHT, axis 0) then
(Joystick.RIGHT, axis 1); the driver keeps one callback per control, so
the later RTHUMBX registration is the effective one.  No callback is
registered for RTHUMBY, and none targets `Joystick.LEFT`. -/
inductive Ev
  | button (b : Button) (v : Bool)
  | trigger (t : Trigger) (v : ℚ)
  | lthumbx (v : ℚ)
  | lthumby (v : ℚ)
  | rthumbx (v : ℚ)
  | start (v : Bool)
  | back (v : Bool)
  | tick

/-- `Controller.__start_callback`: record the raw value, and on a truthy
value either exit (if BACK is currently down) or run `__handle_start`. -/
def start_callback (us : UserAction) (s : RacecarState) (v : Bool) :
    RacecarState :=
  let s := { s with ctrl := { s.ctrl with cur_start := v } }
  if v then
    if s.ctrl.cur_back then { s with halted := true }
    else handle_start us s
  else s

/-- `Controller.__back_callback`. -/
def back_callback (s : RacecarState) (v : Bool) : RacecarState :=
  let s := { s with ctrl := { s.ctrl with cur_back := v } }
  if v then
    if s.ctrl.cur_start then { s with halted := true }
    else handle_back s
  else s

/-- One event step.  After `exit(0)` no further event is processed; an
uncaught exception in the callback thread kills that thread, so the
raw flags likewise stop changing — both are modelled as absorbing. -/
def step (us uu : UserAction) (s : RacecarState) : Ev → RacecarState :=
  fun e =>
    if s.halted ∨ s.errored then s else
    match e with
    | .button b v => { s with ctrl := Controller.button_callback s.ctrl b v }
    | .trigger t v => { s with ctrl := Controller.trigger_callback s.ctrl t v }
    | .lthumbx v =>
        { s with ctrl := Controller.joystick_callback s.ctrl .right 0 v }
    | .lthumby v =>
        { s with ctrl := Controller.joystick_callback s.ctrl .right 1 v }
    | .rthumbx v =>
        { s with ctrl := Controller.joystick_callback s.ctrl .right 1 v }
    | .start v => start_callback us s v
    | .back v => back_callback s v
    | .tick =>
        let s :=
          match s.mode with
          | .defaultDrive => default_update s
          | .userProgram => { s with drive := uu s.ctrl s.drive }
        { s with
          drive := Drive.flush s.drive
          ctrl := Controller.commit s.ctrl }

/-- A run: fold the step over an event list. -/
def run (us uu : UserAction) (s : RacecarState) (evs : List Ev) :
    RacecarState :=
  evs.foldl (step us uu) s

/-- `n` consecutive loop iterations. -/
def ticksN (us uu : UserAction) (s : RacecarState) : ℕ → RacecarState
  | 0 => s
  | n + 1 => ticksN us uu (step us uu s .tick) n

end Racecar

/-! ## Lidar (`src/library/lidar.py`) -/

/-- Mutable state of `Lidar`: whether `self._event` is set, and the
cached `__length` and `__ranges`. -/
structure LidarState where
  eventSet : Bool
  length : ℕ
  ranges : List ℚ

namespace Lidar

/-- State after `Lidar.__init__`: event clear, `__length = 0`,
`__ranges = ()`. -/
def init : LidarState where
  eventSet := false
  length := 0
  ranges := []

/-- `Lidar.__scan_callback`: cache the scan wholesale and set the
event. -/
def scan_callback (_s : LidarState) (data : List ℚ) : LidarState where
  eventSet := true
  length := data.length
  ranges := data

/-- Whether `self._event.wait(timeout)` makes the caller wait at all:
it returns immediately exactly when the event is already set. -/
def blocks (s : LidarState) : Bool :=
  !s.eventSet

/-- The outcome of a `get_ranges(timeout)` call: `event.wait(timeout)`
followed by reading `self.__ranges`.  `arrival` is the scan delivered
by `__scan_callback` during the wait, if any; the result is `none` when
the call never returns (event clear, no timeout, no arrival ever). -/
def get_ranges (s : LidarState) (timeout : Option ℚ)
    (arrival : Option (List ℚ)) : Option (List ℚ) :=
  if s.eventSet then some s.ranges
  else
    match arrival with
    | some data => some (scan_callback s data).ranges
    | none =>
      match timeout with
      | some _ => some s.ranges
      | none => none

/-- The outcome of a `get_length(timeout)` call, same wait semantics. -/
def get_length (s : LidarState) (timeout : Option ℚ)
    (arrival : Option (List ℚ)) : Option ℕ :=
  if s.eventSet then some s.length
  else
    match arrival with
    | some data => some (scan_callback s data).length
    | none =>
      match timeout with
      | some _ => some s.length
      | none => none

end Lidar

namespace Racecar

/-- A controller state in which both triggers were committed pressed. -/
def ctrlBothTriggers : ControllerState :=
  { Controller.init with last_trigger := fun _ => 1 }

/-- A racecar state whose controller has both triggers pressed. -/
def rcBothTriggers : RacecarState :=
  { racecarInit with ctrl := ctrlBothTriggers }

end Racecar

/-! ## Theorems -/

namespace Racecar

theorem clamp_cases (lo hi x : ℚ) (hlohi : lo ≤ hi) :
    (hi < x → max lo (min hi x) = hi) ∧
    (x < lo → max lo (min hi x) = lo) ∧
    (lo ≤ x → x ≤ hi → max lo (min hi x) = x) := by
  refine ⟨fun h => ?_, fun h => ?_, fun h1 h2 => ?_⟩
  · rw [min_eq_left h.le, max_eq_right hlohi]
  · rw [min_eq_right (h.le.trans hlohi), max_eq_left h.le]
  · rw [min_eq_right h2, max_eq_right h1]

/-- C3: `set_speed_angle` stores a pending command whose speed is
`speed` clamped to `[-MAX_SPEED, MAX_SPEED]` and whose angle is `angle`
clamped to `[-MAX_ANGLE, MAX_ANGLE]`, with `MAX_SPEED = 5` and
`MAX_ANGLE = 20`; above-bound inputs store the bound, below-bound
inputs store the negated bound, in-range inputs store themselves; no
publish is performed. -/
theorem C3_set_speed_angle_clamps (d : DriveState) (speed angle : ℚ) :
    (Drive.set_speed_angle d speed angle).message =
      (max (-Drive.MAX_SPEED) (min Drive.MAX_SPEED speed),
       max (-Drive.MAX_ANGLE) (min Drive.MAX_ANGLE angle)) ∧
    (Drive.MAX_SPEED < speed →
      (Drive.set_speed_angle d speed angle).message.1 = Drive.MAX_SPEED) ∧
    (speed < -Drive.MAX_SPEED →
      (Drive.set_speed_angle d speed angle).message.1 = -Drive.MAX_SPEED) ∧
    (-Drive.MAX_SPEED ≤ speed → speed ≤ Drive.MAX_SPEED →
      (Drive.set_speed_angle d speed angle).message.1 = speed) ∧
    (Drive.MAX_ANGLE < angle →
      (Drive.set_speed_angle d speed angle).message.2 = Drive.MAX_ANGLE) ∧
    (angle < -Drive.MAX_ANGLE →
      (Drive.set_speed_angle d speed angle).message.2 = -Drive.MAX_ANGLE) ∧
    (-Drive.MAX_ANGLE ≤ angle → angle ≤ Drive.MAX_ANGLE →
      (Drive.set_speed_angle d speed angle).message.2 = angle) ∧
    Drive.MAX_SPEED = 5 ∧ Drive.MAX_ANGLE = 20 ∧
    (Drive.set_speed_angle d speed angle).published = d.published := by
  have hs := clamp_cases (-Drive.MAX_SPEED) Drive.MAX_SPEED speed
    (by norm_num [Drive.MAX_SPEED])
  have ha := clamp_cases (-Drive.MAX_ANGLE) Drive.MAX_ANGLE angle
    (by norm_num [Drive.MAX_ANGLE])
  refine ⟨rfl, fun h => hs.1 h, fun h => hs.2.1 h, fun h1 h2 => hs.2.2 h1 h2,
    fun h => ha.1 h, fun h => ha.2.1 h, fun h1 h2 => ha.2.2 h1 h2,
    rfl, rfl, rfl⟩

/-- Witness for C3 at concrete inputs `speed = 7 > 5` and
`angle = -25 < -20`. -/
theorem C3_witness :
    Drive.MAX_SPEED < (7 : ℚ) ∧ (-25 : ℚ) < -Drive.MAX_ANGLE ∧
    (Drive.set_speed_angle Drive.init 7 (-25)).message.1 = Drive.MAX_SPEED ∧
    (Drive.set_speed_angle Drive.init 7 (-25)).message.2 = -Drive.MAX_ANGLE ∧
    (Drive.set_speed_angle Drive.init 7 (-25)).published = [] :=
  ⟨by norm_num [Drive.MAX_SPEED], by norm_num [Drive.MAX_ANGLE],
   (C3_set_speed_angle_clamps Drive.init 7 (-25)).2.1
     (by norm_num [Drive.MAX_SPEED]),
   (C3_set_speed_angle_clamps Drive.init 7 (-25)).2.2.2.2.2.1
     (by norm_num [Drive.MAX_ANGLE]),
   (C3_set_speed_angle_clamps Drive.init 7 (-25)).2.2.2.2.2.2.2.2.2⟩

/-- C4: when both committed triggers are strictly positive, the speed
computed by `__default_update` is `0`, and that `0` is what
`__default_update` passes to `set_speed_angle`. -/
theorem C4_dual_trigger_speed_zero (s : RacecarState)
    (hf : 0 < Controller.get_trigger s.ctrl (.trigger .left))
    (hb : 0 < Controller.get_trigger s.ctrl (.trigger .right)) :
    default_speed s.ctrl = 0 ∧
    (default_update s).drive =
      Drive.set_speed_angle s.drive 0 (default_angle s.ctrl) := by
  have h : default_speed s.ctrl = 0 := by
    unfold default_speed
    rw [if_pos ⟨hf, hb⟩]
  refine ⟨h, ?_⟩
  unfold default_update
  rw [h]

/-- Witness for C4 with both committed triggers at `1`. -/
theorem C4_witness :
    0 < Controller.get_trigger rcBothTriggers.ctrl (.trigger .left) ∧
    0 < Controller.get_trigger rcBothTriggers.ctrl (.trigger .right) ∧
    default_speed rcBothTriggers.ctrl = 0 :=
  ⟨by norm_num [Controller.get_trigger, rcBothTriggers, ctrlBothTriggers],
   by norm_num [Controller.get_trigger, rcBothTriggers, ctrlBothTriggers],
   (C4_dual_trigger_speed_zero rcBothTriggers
     (by norm_num [Controller.get_trigger, rcBothTriggers, ctrlBothTriggers])
     (by norm_num [Controller.get_trigger, rcBothTriggers,
       ctrlBothTriggers])).1⟩

/-- C6: accessor arguments that are not members of the expected enum
get the benign default — `false` for `is_down`/`was_pressed`/
`was_released`, `0` for `get_trigger`, `(0, 0)` for `get_joystick` —
in every controller state, without raising. -/
theorem C6_invalid_ids_benign (c : ControllerState) :
    (∀ t, Controller.is_down c (.trigger t) = false ∧
      Controller.was_pressed c (.trigger t) = false ∧
      Controller.was_released c (.trigger t) = false) ∧
    (∀ j, Controller.is_down c (.joystick j) = false ∧
      Controller.was_pressed c (.joystick j) = false ∧
      Controller.was_released c (.joystick j) = false) ∧
    (Controller.is_down c .other = false ∧
      Controller.was_pressed c .other = false ∧
      Controller.was_released c .other = false) ∧
    (∀ b, Controller.get_trigger c (.button b) = 0) ∧
    (∀ j, Controller.get_trigger c (.joystick j) = 0) ∧
    Controller.get_trigger c .other = 0 ∧
    (∀ b, Controller.get_joystick c (.button b) = (0, 0)) ∧
    (∀ t, Controller.get_joystick c (.trigger t) = (0, 0)) ∧
    Controller.get_joystick c .other = (0, 0) :=
  ⟨fun _ => ⟨rfl, rfl, rfl⟩, fun _ => ⟨rfl, rfl, rfl⟩, ⟨rfl, rfl, rfl⟩,
   fun _ => rfl, fun _ => rfl, rfl, fun _ => rfl, fun _ => rfl, rfl⟩

/-- C7: for every button argument and every controller state,
`was_pressed` and `was_released` are never both true on the same
tick. -/
theorem C7_pressed_released_exclusive (c : ControllerState) (a : CtrlArg) :
    (Controller.was_pressed c a && Controller.was_released c a) = false := by
  cases a with
  | button b =>
    simp only [Controller.was_pressed, Controller.was_released]
    cases c.is_down b <;> simp
  | trigger t => rfl
  | joystick j => rfl
  | other => rfl

/-- C8: `flush` publishes the pending command unconditionally and does
not change it, so two flushes with no intervening `set_speed_angle` or
`stop` publish the same command twice; if `set_speed_angle` was never
called the published command is `(0, 0)`. -/
theorem C8_flush_idempotent (d : DriveState) :
    (Drive.flush d).message = d.message ∧
    (Drive.flush d).published = d.published ++ [d.message] ∧
    (Drive.flush (Drive.flush d)).published =
      d.published ++ [d.message, d.message] ∧
    Drive.init.message = (0, 0) ∧
    (Drive.flush Drive.init).published = [(0, 0)] := by
  refine ⟨rfl, rfl, ?_, rfl, rfl⟩
  simp [Drive.flush]

end Racecar

namespace Racecar

theorem pressedCount_eq_risingCount (b : Button) (evs : List Controller.CEv) :
    ∀ c : ControllerState,
      Controller.pressedCount c b evs =
        Controller.risingCount (c.is_down b) (Controller.committedSeq c b evs) := by
  induction evs with
  | nil => intro c; rfl
  | cons e es ih =>
    intro c
    cases e with
    | raw b' v =>
      simp only [Controller.pressedCount, Controller.committedSeq,
        Controller.capply]
      rw [ih, Nat.zero_add]
      rfl
    | commit =>
      simp only [Controller.pressedCount, Controller.committedSeq,
        Controller.risingCount, Controller.capply]
      rw [ih]
      rfl

/-- C2: over any sequence of raw button callback events interleaved
with commits, `was_pressed b` is true on exactly one tick per rising
edge of the committed `is_down` snapshot sequence, however many raw
events occur between commits; and the edge predicate reads only the two
committed snapshots — a raw callback never changes it, and it is a
function of `was_down`/`is_down` alone (the raw accumulator is
irrelevant). -/
theorem C2_debounce_one_pressed_per_edge (c : ControllerState) (b : Button)
    (evs : List Controller.CEv) :
    Controller.pressedCount c b evs =
      Controller.risingCount (c.is_down b) (Controller.committedSeq c b evs) ∧
    (∀ (b' : Button) (v : Bool) (a : CtrlArg),
      Controller.was_pressed (Controller.button_callback c b' v) a =
        Controller.was_pressed c a) ∧
    (∀ (f : Button → Bool) (a : CtrlArg),
      Controller.was_pressed { c with cur_down := f } a =
        Controller.was_pressed c a) :=
  ⟨pressedCount_eq_risingCount b evs c,
   fun _ _ a => by cases a <;> rfl,
   fun _ a => by cases a <;> rfl⟩

end Racecar

namespace Racecar

theorem step_left_joystick (us uu : UserAction) (s : RacecarState) (e : Ev)
    (h1 : s.ctrl.cur_joystick .left = (0, 0))
    (h2 : s.ctrl.last_joystick .left = (0, 0)) :
    (step us uu s e).ctrl.cur_joystick .left = (0, 0) ∧
    (step us uu s e).ctrl.last_joystick .left = (0, 0) := by
  unfold step
  by_cases hs : s.halted ∨ s.errored
  · rw [if_pos hs]; exact ⟨h1, h2⟩
  · rw [if_neg hs]
    cases e with
    | button b v => exact ⟨h1, h2⟩
    | trigger t v => exact ⟨h1, h2⟩
    | lthumbx v =>
      refine ⟨?_, h2⟩
      simp [Controller.joystick_callback, Function.update_apply, h1]
    | lthumby v =>
      refine ⟨?_, h2⟩
      simp [Controller.joystick_callback, Function.update_apply, h1]
    | rthumbx v =>
      refine ⟨?_, h2⟩
      simp [Controller.joystick_callback, Function.update_apply, h1]
    | start v =>
      simp only [start_callback, handle_start]
      split_ifs <;> exact ⟨h1, h2⟩
    | back v =>
      simp only [back_callback, handle_back]
      split_ifs <;> exact ⟨h1, h2⟩
    | tick => cases s.mode <;> exact ⟨h1, h1⟩

theorem run_left_joystick (us uu : UserAction) (evs : List Ev) :
    ∀ s : RacecarState, s.ctrl.cur_joystick .left = (0, 0) →
      s.ctrl.last_joystick .left = (0, 0) →
      (run us uu s evs).ctrl.cur_joystick .left = (0, 0) ∧
      (run us uu s evs).ctrl.last_joystick .left = (0, 0) := by
  induction evs with
  | nil => exact fun s h1 h2 => ⟨h1, h2⟩
  | cons e es ih =>
    intro s h1 h2
    have h := step_left_joystick us uu s e h1 h2
    exact ih _ h.1 h.2

/-- C9: every registered thumbstick-axis callback writes the
`Joystick.RIGHT` raw accumulator and none writes the LEFT one, so after
any sequence of raw events and ticks from startup `get_joystick(LEFT)`
returns `(0, 0)` and the default-drive steering angle is `0`. -/
theorem C9_left_joystick_always_zero (us uu : UserAction) (evs : List Ev) :
    Controller.get_joystick (run us uu racecarInit evs).ctrl
      (.joystick .left) = (0, 0) ∧
    default_angle (run us uu racecarInit evs).ctrl = 0 ∧
    (∀ (s : RacecarState) (v : ℚ),
      (step us uu s (.lthumbx v)).ctrl.cur_joystick .left =
        s.ctrl.cur_joystick .left ∧
      (step us uu s (.lthumby v)).ctrl.cur_joystick .left =
        s.ctrl.cur_joystick .left ∧
      (step us uu s (.rthumbx v)).ctrl.cur_joystick .left =
        s.ctrl.cur_joystick .left) := by
  have h := run_left_joystick us uu evs racecarInit rfl rfl
  refine ⟨h.2, ?_, ?_⟩
  · show (Controller.get_joystick _ (.joystick .left)).1 * 20 = 0
    show ((run us uu racecarInit evs).ctrl.last_joystick .left).1 * 20 = 0
    rw [h.2]
    norm_num
  · intro s v
    refine ⟨?_, ?_, ?_⟩ <;>
      · unfold step
        by_cases hs : s.halted ∨ s.errored
        · rw [if_pos hs]
        · rw [if_neg hs]
          simp [Controller.joystick_callback, Function.update_apply]

theorem step_userSet_errored (us uu : UserAction) (s : RacecarState) (e : Ev)
    (hu : s.userSet = true) (he : s.errored = false) :
    (step us uu s e).userSet = true ∧ (step us uu s e).errored = false := by
  unfold step
  by_cases hs : s.halted ∨ s.errored
  · rw [if_pos hs]; exact ⟨hu, he⟩
  · rw [if_neg hs]
    cases e with
    | button b v => exact ⟨hu, he⟩
    | trigger t v => exact ⟨hu, he⟩
    | lthumbx v => exact ⟨hu, he⟩
    | lthumby v => exact ⟨hu, he⟩
    | rthumbx v => exact ⟨hu, he⟩
    | start v =>
      simp only [start_callback, handle_start]
      split_ifs <;> exact ⟨hu, he⟩
    | back v =>
      simp only [back_callback, handle_back]
      split_ifs <;> exact ⟨hu, he⟩
    | tick => cases s.mode <;> exact ⟨hu, he⟩

theorem run_not_errored (us uu : UserAction) (evs : List Ev) :
    ∀ s : RacecarState, s.userSet = true → s.errored = false →
      (run us uu s evs).errored = false := by
  induction evs with
  | nil => exact fun s _ he => he
  | cons e es ih =>
    intro s hu he
    have h := step_userSet_errored us uu s e hu he
    exact ih _ h.1 h.2

/-- C10: from the freshly constructed racecar, before `set_start_update`
has been called, a start-pressed callback with back not pressed reaches
the call of the stored user start function while it is still `None`, so
it raises instead of performing the transition (mode stays the default
drive, the user start action never runs); once `set_start_update` has
installed the user functions, no run can reach that error branch. -/
theorem C10_start_before_set_raises (us uu : UserAction) :
    (step us uu racecarInit (.start true)).errored = true ∧
    (step us uu racecarInit (.start true)).mode = .defaultDrive ∧
    (step us uu racecarInit (.start true)).userStartCalls = 0 ∧
    (∀ evs : List Ev,
      (run us uu (set_start_update racecarInit) evs).errored = false) :=
  ⟨rfl, rfl, rfl, fun evs => run_not_errored us uu evs _ rfl rfl⟩

theorem step_tick_userStartCalls (us uu : UserAction) (s : RacecarState) :
    (step us uu s .tick).userStartCalls = s.userStartCalls := by
  unfold step
  by_cases hs : s.halted ∨ s.errored
  · rw [if_pos hs]
  · rw [if_neg hs]
    cases s.mode <;> rfl

theorem ticksN_userStartCalls (us uu : UserAction) (n : ℕ) :
    ∀ s : RacecarState, (ticksN us uu s n).userStartCalls = s.userStartCalls := by
  induction n with
  | zero => intro s; rfl
  | succ n ih =>
    intro s
    show (ticksN us uu (step us uu s .tick) n).userStartCalls = _
    rw [ih, step_tick_userStartCalls]

theorem step_both_pressed_halted (us uu : UserAction) (s : RacecarState)
    (e : Ev)
    (ih : s.ctrl.cur_start = true → s.ctrl.cur_back = true →
      s.halted = true) :
    (step us uu s e).ctrl.cur_start = true →
    (step us uu s e).ctrl.cur_back = true →
    (step us uu s e).halted = true := by
  unfold step
  by_cases hs : s.halted ∨ s.errored
  · rw [if_pos hs]; exact ih
  · rw [if_neg hs]
    cases e with
    | button b v => exact ih
    | trigger t v => exact ih
    | lthumbx v => exact ih
    | lthumby v => exact ih
    | rthumbx v => exact ih
    | start v =>
      simp only [start_callback, handle_start]
      split_ifs with a b c
      · intro _ _; rfl
      · intro _ hb2; exact absurd hb2 b
      · intro _ hb2; exact absurd hb2 b
      · intro ha _; exact absurd ha a
    | back v =>
      simp only [back_callback, handle_back]
      split_ifs with a b
      · intro _ _; rfl
      · intro ha _; exact absurd ha b
      · intro _ hb2; exact absurd hb2 a
    | tick => cases s.mode <;> exact ih

theorem run_both_pressed_halted (us uu : UserAction) (evs : List Ev) :
    ∀ s : RacecarState,
      (s.ctrl.cur_start = true → s.ctrl.cur_back = true →
        s.halted = true) →
      (run us uu s evs).ctrl.cur_start = true →
      (run us uu s evs).ctrl.cur_back = true →
      (run us uu s evs).halted = true := by
  induction evs with
  | nil => exact fun s h => h
  | cons e es ih =>
    intro s h
    exact ih _ (step_both_pressed_halted us uu s e h)

/-- C1: from any live state with the user functions installed, BACK not
pressed and the mode not already the user program, a start-pressed
callback enters user-program mode and runs the user start action
exactly once — any number of subsequent loop ticks leaves its
invocation count unchanged — and in every run from startup, whenever
both START and BACK are pressed the process has halted, regardless of
mode. -/
theorem C1_mode_machine_start (us uu : UserAction) (s : RacecarState)
    (hh : s.halted = false) (he : s.errored = false)
    (hu : s.userSet = true) (hb : s.ctrl.cur_back = false)
    (_hm : s.mode ≠ .userProgram) :
    (step us uu s (.start true)).mode = .userProgram ∧
    (step us uu s (.start true)).userStartCalls = s.userStartCalls + 1 ∧
    (∀ n, (ticksN us uu (step us uu s (.start true)) n).userStartCalls =
      s.userStartCalls + 1) ∧
    (∀ evs, (run us uu racecarInit evs).ctrl.cur_start = true →
      (run us uu racecarInit evs).ctrl.cur_back = true →
      (run us uu racecarInit evs).halted = true) := by
  have hstep : (step us uu s (.start true)).mode = .userProgram ∧
      (step us uu s (.start true)).userStartCalls =
        s.userStartCalls + 1 := by
    unfold step start_callback handle_start
    rw [if_neg (by simp [hh, he])]
    simp [hb, hu]
  refine ⟨hstep.1, hstep.2, fun n => ?_, fun evs => ?_⟩
  · rw [ticksN_userStartCalls, hstep.2]
  · exact run_both_pressed_halted us uu evs racecarInit
      (fun h _ => nomatch h)

/-- Witness for C1 at the concrete run that installs the user actions,
then receives a single start press; and a concrete run in which BACK
then START are pressed. -/
theorem C1_witness :
    (step (fun _ d => d) (fun _ d => d) (set_start_update racecarInit)
      (.start true)).mode = .userProgram ∧
    (step (fun _ d => d) (fun _ d => d) (set_start_update racecarInit)
      (.start true)).userStartCalls = 1 ∧
    (ticksN (fun _ d => d) (fun _ d => d)
      (step (fun _ d => d) (fun _ d => d) (set_start_update racecarInit)
        (.start true)) 5).userStartCalls = 1 ∧
    (run (fun _ d => d) (fun _ d => d) racecarInit
      [.back true, .start true]).halted = true := by
  have h := C1_mode_machine_start (fun _ d => d) (fun _ d => d)
    (set_start_update racecarInit) rfl rfl rfl rfl (by decide)
  exact ⟨h.1, h.2.1, h.2.2.1 5, h.2.2.2 [.back true, .start true] rfl rfl⟩

end Racecar

/-- C5: a `get_ranges`/`get_length` call made before any scan has
arrived, whose timeout elapses, returns the empty sequence / `0` rather
than failing; once a scan has arrived, a call with no timeout does not
block and returns the most recently cached scan. -/
theorem C5_sensor_read_before_arrival :
    (∀ t : ℚ, Lidar.get_ranges Lidar.init (some t) none = some [] ∧
      Lidar.get_length Lidar.init (some t) none = some 0) ∧
    (∀ (s : LidarState) (data : List ℚ),
      Lidar.blocks (Lidar.scan_callback s data) = false ∧
      Lidar.get_ranges (Lidar.scan_callback s data) none none = some data ∧
      Lidar.get_length (Lidar.scan_callback s data) none none =
        some data.length) :=
  ⟨fun _ => ⟨rfl, rfl⟩, fun _ _ => ⟨rfl, rfl, rfl⟩⟩
